import Mathlib

/-!
Verification development for the moonraker power component
(src/moonraker/components/power.py).

The shallow embedding translates the generic device-state engine
(`PowerDevice.process_request`, `process_power_changed`,
`process_bound_services`, `process_klippy_shutdown`,
`_power_off_on_shutdown`, `_schedule_firmware_restart`), the registry
request surface (`PrinterPower._handle_single_power_request`,
`_handle_batch_power_request`, `set_device_power`) and the auto-off timer
logic of `GpioDevice.set_power` / `KlipperDevice.set_power` into pure Lean
functions.  Device state is the Python string field `self.state`
("init" / "on" / "off" / "error"); driver calls (`refresh_status`,
`set_power`) are passed in as function parameters, with each call
returning the new value of `self.state` plus an optional raised error
(concrete drivers set `self.state = "error"` and re-raise on failure).
Event-loop timers are modelled as an explicit list of armed timer ids.
-/

set_option autoImplicit false

namespace Power

/-- Modelled from the spec: the supervised hardware (Klippy) connection
state, used by `process_power_changed` / `_schedule_firmware_restart` /
`_power_off_on_shutdown`.  The `KlippyState` enum itself lives in
`moonraker/common.py`, which is not part of the sources; the spec says the
connection is "disconnected or hasn't proceeded past the startup state"
exactly when startup is not complete, reports "ready" in steady state, and
has a distinguished shutdown condition. -/
inductive KlippyState where
  | disconnected
  | startup
  | ready
  | error
  | shutdown
deriving Repr, DecidableEq

/-- Modelled from the spec: `KlippyState.startup_complete()` is false
exactly for the disconnected and startup states. -/
def KlippyState.startup_complete : KlippyState → Bool
  | .disconnected => false
  | .startup => false
  | _ => true

/-- The outcome of one driver call (`refresh_status` or `set_power`):
the value of `self.state` after the call, and the message of the raised
error when the call failed (concrete drivers assign `self.state` before
raising `self.server.error(msg)`). -/
structure DriverResult where
  newState : String
  error : Option String
deriving Repr, DecidableEq

/-- The driver capability of one concrete device type: `refresh_status`
reads the current `self.state` and yields a `DriverResult`; `set_power`
reads the current `self.state` and the requested state. -/
structure Driver where
  refreshStatus : String → DriverResult
  setPower : String → String → DriverResult

/-- The fields of `PowerDevice.__init__` that the modelled methods read or
write.  `lockLocked` models `self.request_lock.locked()` at entry. -/
structure PDev where
  name : String
  dtype : String
  state : String
  lockLocked : Bool
  lockedWhilePrinting : Bool
  offWhenShutdown : Bool
  offWhenShutdownDelay : Nat
  shutdownTimerHandle : Option Nat
  klipperRestart : Bool
  needScheduledRestart : Bool
  boundServices : List String
  restrictActions : Bool
  lastUpdateTime : Nat
deriving Repr, DecidableEq

/-- `PowerDevice._schedule_firmware_restart`: clears the pending-restart
flag; aborts when Klippy reports ready, otherwise schedules the delayed
FIRMWARE_RESTART (returned boolean). -/
def schedule_firmware_restart (d : PDev) (ks : KlippyState) : PDev × Bool :=
  if d.needScheduledRestart = false then (d, false)
  else
    let d2 := { d with needScheduledRestart := false }
    if ks = KlippyState.ready then (d2, false) else (d2, true)

/-- `PowerDevice.process_bound_services`: the (action, service) pairs
performed, in configuration order ("start" when the state is on, "stop"
when it is off, nothing otherwise). -/
def process_bound_services (d : PDev) : List (String × String) :=
  if d.boundServices = [] ∨ (d.state ≠ "on" ∧ d.state ≠ "off") then []
  else d.boundServices.map (fun svc => ((if d.state = "on" then "start" else "stop"), svc))

/-- Observable side effects of one request: `power:power_changed`
notifications emitted, bound-service actions performed, and whether a
delayed FIRMWARE_RESTART was scheduled. -/
structure Effects where
  notifyCount : Nat
  serviceActions : List (String × String)
  restartScheduled : Bool
deriving Repr, DecidableEq

/-- No side effect. -/
def Effects.nil : Effects := { notifyCount := 0, serviceActions := [], restartScheduled := false }

/-- `PowerDevice.process_power_changed`: emits the notification, runs the
bound-service actions, and arms / fires the Klipper firmware-restart hook
when the device just turned on. -/
def process_power_changed (d : PDev) (ks : KlippyState) : PDev × Effects :=
  let svcActs := if d.boundServices ≠ [] then process_bound_services d else []
  if d.state = "on" ∧ d.klipperRestart = true then
    let d2 := { d with needScheduledRestart := true }
    if ks.startup_complete = false then
      (d2, { notifyCount := 1, serviceActions := svcActs, restartScheduled := false })
    else
      let sr := schedule_firmware_restart d2 ks
      (sr.1, { notifyCount := 1, serviceActions := svcActs, restartScheduled := sr.2 })
  else
    (d, { notifyCount := 1, serviceActions := svcActs, restartScheduled := false })

instance {ε α : Type} [DecidableEq ε] [DecidableEq α] : DecidableEq (Except ε α) := fun a b =>
  match a, b with
  | Except.ok x, Except.ok y => decidable_of_iff (x = y) (by simp)
  | Except.ok _, Except.error _ => isFalse (by simp)
  | Except.error _, Except.ok _ => isFalse (by simp)
  | Except.error x, Except.error y => decidable_of_iff (x = y) (by simp)

/-- The full outcome of `PowerDevice.process_request`: the returned state
or the raised error message, the device fields on exit, whether
`refresh_status` ran, the arguments of every `set_power` call, the side
effects, and the lock trace (`acquiredLock` is false only on the
initializing fast-return path, where the lock is not awaited; the
`async with` block releases the lock on every exit once acquired). -/
structure ReqResult where
  result : Except String String
  dev : PDev
  refreshCalled : Bool
  setPowerCalls : List String
  effects : Effects
  acquiredLock : Bool
  lockReleased : Bool
deriving Repr, DecidableEq

/-- `PowerDevice.process_request(req, force)`.  `printing` models
`klippy_connection.is_printing()`, `ks` the Klippy connection state read
by `process_power_changed`, and `now` `eventloop.get_loop_time()` at the
`finally` stamp of `self._last_update_time`. -/
def process_request (drv : Driver) (d0 : PDev) (printing : Bool) (ks : KlippyState)
    (now : Nat) (req0 : String) (force : Bool) : ReqResult :=
  if d0.state = "init" ∧ d0.lockLocked = true then
    { result := Except.ok d0.state, dev := d0, refreshCalled := false,
      setPowerCalls := [], effects := Effects.nil,
      acquiredLock := false, lockReleased := false }
  else
    let baseState := d0.state
    let r := drv.refreshStatus d0.state
    let d1 := { d0 with state := r.newState }
    match r.error with
    | some e =>
      { result := Except.error e, dev := { d1 with lastUpdateTime := now },
        refreshCalled := true, setPowerCalls := [], effects := Effects.nil,
        acquiredLock := true, lockReleased := true }
    | none =>
      let curState := d1.state
      let req := if req0 = "toggle" then (if curState = "off" then "on" else "off") else req0
      if req = "on" ∨ req = "off" then
        if req = curState then
          if baseState ≠ curState then
            if d1.restrictActions = true then
              { result := Except.ok curState, dev := { d1 with lastUpdateTime := now },
                refreshCalled := true, setPowerCalls := [],
                effects := { notifyCount := 1, serviceActions := [], restartScheduled := false },
                acquiredLock := true, lockReleased := true }
            else
              let pc := process_power_changed d1 ks
              { result := Except.ok curState, dev := { pc.1 with lastUpdateTime := now },
                refreshCalled := true, setPowerCalls := [], effects := pc.2,
                acquiredLock := true, lockReleased := true }
          else
            { result := Except.ok curState, dev := { d1 with lastUpdateTime := now },
              refreshCalled := true, setPowerCalls := [], effects := Effects.nil,
              acquiredLock := true, lockReleased := true }
        else if force = false ∧ d1.lockedWhilePrinting = true ∧ printing = true then
          { result := Except.error ("Unable to change power for " ++ d1.name ++ " while printing"),
            dev := { d1 with lastUpdateTime := now },
            refreshCalled := true, setPowerCalls := [], effects := Effects.nil,
            acquiredLock := true, lockReleased := true }
        else
          let rs := drv.setPower d1.state req
          let d2 := { d1 with state := rs.newState }
          match rs.error with
          | some e =>
            { result := Except.error e, dev := { d2 with lastUpdateTime := now },
              refreshCalled := true, setPowerCalls := [req], effects := Effects.nil,
              acquiredLock := true, lockReleased := true }
          | none =>
            let curState2 := d2.state
            let pc := process_power_changed d2 ks
            { result := Except.ok curState2, dev := { pc.1 with lastUpdateTime := now },
              refreshCalled := true, setPowerCalls := [req], effects := pc.2,
              acquiredLock := true, lockReleased := true }
      else if req ≠ "status" then
        { result := Except.error ("Unsupported power request: " ++ req),
          dev := { d1 with lastUpdateTime := now },
          refreshCalled := true, setPowerCalls := [], effects := Effects.nil,
          acquiredLock := true, lockReleased := true }
      else if baseState ≠ curState then
        if d1.restrictActions = true then
          { result := Except.ok curState, dev := { d1 with lastUpdateTime := now },
            refreshCalled := true, setPowerCalls := [],
            effects := { notifyCount := 1, serviceActions := [], restartScheduled := false },
            acquiredLock := true, lockReleased := true }
        else
          let pc := process_power_changed d1 ks
          { result := Except.ok curState, dev := { pc.1 with lastUpdateTime := now },
            refreshCalled := true, setPowerCalls := [], effects := pc.2,
            acquiredLock := true, lockReleased := true }
      else
        { result := Except.ok curState, dev := { d1 with lastUpdateTime := now },
          refreshCalled := true, setPowerCalls := [], effects := Effects.nil,
          acquiredLock := true, lockReleased := true }

/-- The Python value passed as `state` to `PrinterPower.set_device_power`
(annotated `Union[bool, str]`). -/
inductive PyVal where
  | bool (b : Bool)
  | str (s : String)
deriving Repr, DecidableEq

/-- Python `str.lower()` on the character list (the inputs of interest
are ASCII). -/
def py_lower (s : String) : String := String.mk (s.data.map Char.toLower)

/-- The request-string normalization performed at the top of
`PrinterPower.set_device_power`: a bool maps to "on"/"off"; a string is
lowercased and "true"/"false" map to "on"/"off". -/
def normalize_request (state : PyVal) : String :=
  match state with
  | PyVal.bool b => if b then "on" else "off"
  | PyVal.str s =>
    let request := py_lower s
    if request = "true" ∨ request = "false" then
      if request = "true" then "on" else "off"
    else request

/-- `PrinterPower.set_device_power(device, state, force)`: returns the
`process_request` callback registered on the event loop — device name,
request string and force flag — or `none` when the call is silently
dropped (invalid normalized request, or unknown device name). -/
def set_device_power (devNames : List String) (device : String) (state : PyVal)
    (force : Bool) : Option (String × String × Bool) :=
  let request := normalize_request state
  if ¬(request = "on" ∨ request = "off" ∨ request = "toggle") then none
  else if device ∉ devNames then none
  else some (device, request, force)

/-- The HTTP request type seen by `_handle_single_power_request`
(moonraker `RequestType`, modelled from its use here: the endpoint is
registered for GET and POST; any other value hits the final else). -/
inductive RequestType where
  | get
  | post
  | delete
deriving Repr, DecidableEq

/-- `PrinterPower._handle_single_power_request`: `proc name act` stands
for `await self.devices[name].process_request(act)` — its `Except` value
is the returned state or the raised error.  The handler returns the
single-entry result map or the raised error message. -/
def handle_single_power_request (devNames : List String)
    (proc : String → String → Except String String)
    (devName : String) (rt : RequestType) (action : String) :
    Except String (List (String × String)) :=
  if devName ∉ devNames then Except.error ("No valid device named " ++ devName)
  else
    let act : Except String String :=
      match rt with
      | RequestType.get => Except.ok "status"
      | RequestType.post =>
        let a := py_lower action
        if a = "on" ∨ a = "off" ∨ a = "toggle" then Except.ok a
        else Except.error ("Invalid requested action " ++ a)
      | RequestType.delete => Except.error "Invalid Request Type"
    match act with
    | Except.error e => Except.error e
    | Except.ok a =>
      match proc devName a with
      | Except.error e => Except.error e
      | Except.ok result => Except.ok [(devName, result)]

/-- The result-building loop of `_handle_batch_power_request`: each
unknown name maps to the literal "device_not_found"; each known name maps
to the state `proc` returns; an error raised by `proc` propagates and
aborts the remaining iterations. -/
def batch_loop (devNames : List String)
    (proc : String → String → Except String String) (req : String) :
    List String → Except String (List (String × String))
  | [] => Except.ok []
  | name :: rest =>
    if name ∈ devNames then
      match proc name req with
      | Except.error e => Except.error e
      | Except.ok st =>
        match batch_loop devNames proc req rest with
        | Except.error e => Except.error e
        | Except.ok tail => Except.ok ((name, st) :: tail)
    else
      match batch_loop devNames proc req rest with
      | Except.error e => Except.error e
      | Except.ok tail => Except.ok ((name, "device_not_found") :: tail)

/-- `PrinterPower._handle_batch_power_request`: `args` is the ordered
list of argument names of the web request, `req` the final segment of the
endpoint ("status", "on" or "off"). -/
def handle_batch_power_request (devNames : List String)
    (proc : String → String → Except String String)
    (args : List String) (req : String) : Except String (List (String × String)) :=
  if args = [] then Except.error "No arguments provided"
  else batch_loop devNames proc req args

/-- The event loop's timer table: armed, not-yet-cancelled timer handles
as (id, scheduled fire time) pairs, plus a fresh-id counter. -/
structure EventLoop where
  armed : List (Nat × Nat)
  nextId : Nat
deriving Repr, DecidableEq

/-- `TimerHandle.cancel()` for the handle with the given id. -/
def EventLoop.cancel (ev : EventLoop) (id : Nat) : EventLoop :=
  { ev with armed := ev.armed.filter (fun t => t.1 ≠ id) }

/-- `event_loop.delay_callback(delay, cb)`: arms a fresh timer scheduled
at `now + delay` and returns its handle id. -/
def EventLoop.delay_callback (ev : EventLoop) (now delay : Nat) : EventLoop × Nat :=
  ({ armed := ev.armed ++ [(ev.nextId, now + delay)], nextId := ev.nextId + 1 }, ev.nextId)

/-- `PowerDevice._power_off_on_shutdown`: re-checks the Klippy connection
state at callback time; when it is still SHUTDOWN, issues the
fire-and-forget `power.set_device_power(self.name, "off")` request
(returned as `some (name, "off")`), otherwise does nothing. -/
def power_off_on_shutdown (d : PDev) (ks : KlippyState) : Option (String × String) :=
  if ks ≠ KlippyState.shutdown then none
  else some (d.name, "off")

/-- `PowerDevice.process_klippy_shutdown`: no-op unless
`off_when_shutdown`; with zero delay, runs `_power_off_on_shutdown`
immediately; with positive delay, cancels any existing shutdown timer and
arms a new one for the delay.  `ks` is the Klippy connection state at the
moment of the event; the third component is the off request issued
immediately (zero-delay case only). -/
def process_klippy_shutdown (d : PDev) (ev : EventLoop) (ks : KlippyState)
    (now : Nat) : PDev × EventLoop × Option (String × String) :=
  if d.offWhenShutdown = false then (d, ev, none)
  else if d.offWhenShutdownDelay = 0 then (d, ev, power_off_on_shutdown d ks)
  else
    let ev1 := match d.shutdownTimerHandle with
      | some id => ev.cancel id
      | none => ev
    let arm := ev1.delay_callback now d.offWhenShutdownDelay
    ({ d with shutdownTimerHandle := some arm.2 }, arm.1, none)

/-- Firing of an armed timer: the callback runs only when the handle is
still armed with that fire time; firing consumes the handle. -/
def fire_timer (ev : EventLoop) (id : Nat) (t : Nat) : EventLoop × Bool :=
  if (id, t) ∈ ev.armed then (ev.cancel id, true) else (ev, false)

/-- The `GpioDevice` fields read by its `set_power` / `_check_timer`:
`timer` is the configured auto-off duration option, `timerHandle` the
currently armed auto-off timer handle. -/
structure GpioDev where
  state : String
  timer : Option Nat
  timerHandle : Option Nat
deriving Repr, DecidableEq

/-- `GpioDevice._check_timer`: when the device is on and a timer duration
is configured, arms a fresh auto-off timer (whose callback is the
registry's `set_device_power(self.name, "off")`). -/
def gpio_check_timer (d : GpioDev) (ev : EventLoop) (now : Nat) : GpioDev × EventLoop :=
  if d.state = "on" ∧ d.timer.isSome = true then
    let arm := ev.delay_callback now (d.timer.getD 0)
    ({ d with timerHandle := some arm.2 }, arm.1)
  else (d, ev)

/-- `GpioDevice.set_power(state)`: cancels any pending auto-off timer,
writes the pin (`writeOk` models whether `self.gpio_out.write` raised),
updates the state and re-checks the timer.  The third component is the
raised error message, if any. -/
def gpio_set_power (d : GpioDev) (ev : EventLoop) (now : Nat) (writeOk : Bool)
    (st : String) : GpioDev × EventLoop × Option String :=
  let ev1 := match d.timerHandle with
    | some id => ev.cancel id
    | none => ev
  let d1 := { d with timerHandle := none }
  if writeOk = false then
    ({ d1 with state := "error" }, ev1, some "Error Toggling Device Power")
  else
    let d2 := { d1 with state := st }
    let ct := gpio_check_timer d2 ev1 now
    (ct.1, ct.2, none)

/-- The `KlipperDevice` fields read by its `set_power` / `_check_timer` /
`_reset_timer`. -/
structure KlipDev where
  state : String
  isShutdown : Bool
  timer : Option Nat
  timerHandle : Option Nat
deriving Repr, DecidableEq

/-- `KlipperDevice._reset_timer`. -/
def klipper_reset_timer (d : KlipDev) (ev : EventLoop) : KlipDev × EventLoop :=
  match d.timerHandle with
  | some id => ({ d with timerHandle := none }, ev.cancel id)
  | none => (d, ev)

/-- `KlipperDevice._check_timer`. -/
def klipper_check_timer (d : KlipDev) (ev : EventLoop) (now : Nat) : KlipDev × EventLoop :=
  if d.state = "on" ∧ d.timer.isSome = true then
    let arm := ev.delay_callback now (d.timer.getD 0)
    ({ d with timerHandle := some arm.2 }, arm.1)
  else (d, ev)

/-- `KlipperDevice.set_power(state)`: refuses when Klipper is shut down,
resets any pending auto-off timer, runs the gcode command and waits for
the subscription update (`outcome` models that round trip: the reported
state on success — which becomes `self.state` through
`_set_state_from_data` — or the raised error with `self.state = "error"`),
then re-checks the timer.  `_st` is the requested state driving the gcode
VALUE. -/
def klipper_set_power (d : KlipDev) (ev : EventLoop) (now : Nat)
    (outcome : Except String String) (_st : String) : KlipDev × EventLoop × Option String :=
  if d.isShutdown = true then
    (d, ev, some "Cannot set power for device when Klipper is shutdown")
  else
    let rt := klipper_reset_timer d ev
    match outcome with
    | Except.error e => ({ rt.1 with state := "error" }, rt.2, some e)
    | Except.ok reported =>
      let d2 := { rt.1 with state := reported }
      let ct := klipper_check_timer d2 rt.2 now
      (ct.1, ct.2, none)

/-- The single-slot timer discipline maintained by the auto-off timer
code: the armed timers of this slot are exactly the one referenced by the
device's handle field, and every referenced id was issued by the loop. -/
def timer_slot_inv (handle : Option Nat) (ev : EventLoop) : Prop :=
  ev.armed.map Prod.fst = handle.toList ∧ (∀ id, handle = some id → id < ev.nextId)

/-- A driver whose refresh reports the stored state unchanged and whose
power set succeeds, reporting the requested state. -/
def idDriver : Driver :=
  { refreshStatus := fun s => { newState := s, error := none },
    setPower := fun _ req => { newState := req, error := none } }

/-- A driver whose refresh always observes the device off (an external
change when the stored state was on). -/
def offDriver : Driver :=
  { refreshStatus := fun _ => { newState := "off", error := none },
    setPower := fun _ req => { newState := req, error := none } }

/-- A sample device: on, locked while printing, one bound service,
restricted action processing. -/
def sampleDev : PDev :=
  { name := "printer_plug", dtype := "gpio", state := "on", lockLocked := false,
    lockedWhilePrinting := true, offWhenShutdown := false, offWhenShutdownDelay := 0,
    shutdownTimerHandle := none, klipperRestart := false, needScheduledRestart := false,
    boundServices := ["klipper"], restrictActions := true, lastUpdateTime := 0 }

/-- An event loop with no armed timers. -/
def emptyLoop : EventLoop := { armed := [], nextId := 0 }

/-- A sample device configured to power off two time units after a Klippy
shutdown event. -/
def shutdownDev : PDev :=
  { name := "printer_plug", dtype := "tplink_smartplug", state := "on", lockLocked := false,
    lockedWhilePrinting := false, offWhenShutdown := true, offWhenShutdownDelay := 2,
    shutdownTimerHandle := none, klipperRestart := false, needScheduledRestart := false,
    boundServices := [], restrictActions := true, lastUpdateTime := 0 }

/-- The off requests issued in the scenario: Klippy shutdown at t=0 arms
the delayed timer, Klippy recovers to ready at t=1 (nothing in the power
component reacts to recovery), the timer fires at t=2 and its callback
re-checks the then-current Klippy state. -/
def shutdown_recovery_offs : List (String × String) :=
  let s1 := process_klippy_shutdown shutdownDev emptyLoop KlippyState.shutdown 0
  let fire := fire_timer s1.2.1 (s1.1.shutdownTimerHandle.getD 0) 2
  s1.2.2.toList ++
    (if fire.2 = true then (power_off_on_shutdown s1.1 KlippyState.ready).toList else [])

/-- The same scenario without the recovery: Klippy is still shut down when
the timer fires at t=2. -/
def shutdown_no_recovery_offs : List (String × String) :=
  let s1 := process_klippy_shutdown shutdownDev emptyLoop KlippyState.shutdown 0
  let fire := fire_timer s1.2.1 (s1.1.shutdownTimerHandle.getD 0) 2
  s1.2.2.toList ++
    (if fire.2 = true then (power_off_on_shutdown s1.1 KlippyState.shutdown).toList else [])

/-- A GPIO device with a 3-unit auto-off timer whose previous timer
(handle 0) is still armed. -/
def gpioSample : GpioDev := { state := "off", timer := some 3, timerHandle := some 0 }

/-- An event loop holding the armed timer with handle 0. -/
def loopSample : EventLoop := { armed := [(0, 9)], nextId := 1 }

/-- A Klipper device with a 4-unit auto-off timer whose previous timer
(handle 0) is still armed. -/
def klipSample : KlipDev :=
  { state := "off", isShutdown := false, timer := some 4, timerHandle := some 0 }

/-- `RFDevice.set_power(state)`: RFDevice inherits GpioDevice (including
the `timer` option and `_check_timer`), but its override transmits the RF
code WITHOUT the cancel of the pending auto-off timer that
`GpioDevice.set_power` performs first.  On transmit failure it sets the
state to "error" and raises; on success it updates the state and runs the
inherited `_check_timer`, overwriting `self.timer_handle` without
cancelling the previously armed timer.  `transmitOk` models whether
`_transmit_code` raised. -/
def rf_set_power (d : GpioDev) (ev : EventLoop) (now : Nat) (transmitOk : Bool)
    (st : String) : GpioDev × EventLoop × Option String :=
  if transmitOk = false then
    ({ d with state := "error" }, ev, some "Error Toggling Device Power")
  else
    let d2 := { d with state := st }
    let ct := gpio_check_timer d2 ev now
    (ct.1, ct.2, none)

/-- An RF device with a 10-unit auto-off timer and no timer armed yet. -/
def rfSample : GpioDev := { state := "off", timer := some 10, timerHandle := none }

/-- The device and event loop after `rf_set_power` runs on at t=0, off at
t=1 and on again at t=2, all before the first armed timer (due at t=10)
fires. -/
def rf_double_on_trace : GpioDev × EventLoop :=
  let s1 := rf_set_power rfSample emptyLoop 0 true "on"
  let s2 := rf_set_power s1.1 s1.2.1 1 true "off"
  let s3 := rf_set_power s2.1 s2.2.1 2 true "on"
  (s3.1, s3.2.1)

theorem map_fst_singleton {l : List (Nat × Nat)} {a : Nat}
    (h : l.map Prod.fst = [a]) : ∃ b, l = [(a, b)] := by
  cases l with
  | nil => cases h
  | cons x xs =>
    cases xs with
    | nil =>
      simp only [List.map_cons, List.map_nil, List.cons.injEq, and_true] at h
      exact ⟨x.2, by rw [← h]⟩
    | cons y ys => simp at h

theorem cancel_clears {handle : Option Nat} {ev : EventLoop}
    (h : timer_slot_inv handle ev) :
    (match handle with | some id => ev.cancel id | none => ev).armed = [] := by
  cases handle with
  | none => simpa using List.map_eq_nil_iff.mp h.1
  | some id =>
    obtain ⟨b, hb⟩ := map_fst_singleton h.1
    simp [EventLoop.cancel, hb]

theorem cancel_keeps_nextId (handle : Option Nat) (ev : EventLoop) :
    (match handle with | some id => ev.cancel id | none => ev).nextId = ev.nextId := by
  cases handle <;> rfl

theorem inv_armed_short {handle : Option Nat} {ev : EventLoop}
    (h : timer_slot_inv handle ev) : ev.armed.length ≤ 1 := by
  have hlen := congrArg List.length h.1
  rw [List.length_map] at hlen
  rw [hlen]
  cases handle <;> simp

theorem gpio_set_power_false (d : GpioDev) (ev : EventLoop) (now : Nat) (st : String) :
    gpio_set_power d ev now false st =
      ({ state := "error", timer := d.timer, timerHandle := none },
       (match d.timerHandle with | some id => ev.cancel id | none => ev),
       some "Error Toggling Device Power") := rfl

theorem gpio_set_power_true (d : GpioDev) (ev : EventLoop) (now : Nat) (st : String) :
    gpio_set_power d ev now true st =
      (let ev1 := match d.timerHandle with | some id => ev.cancel id | none => ev
       let ct := gpio_check_timer { state := st, timer := d.timer, timerHandle := none } ev1 now
       (ct.1, ct.2, none)) := rfl

theorem gpio_check_timer_inv (d : GpioDev) (ev : EventLoop) (now : Nat)
    (hh : d.timerHandle = none) (ha : ev.armed = []) :
    timer_slot_inv (gpio_check_timer d ev now).1.timerHandle (gpio_check_timer d ev now).2 ∧
    (gpio_check_timer d ev now).2.armed.length ≤ 1 := by
  unfold gpio_check_timer
  by_cases hc : d.state = "on" ∧ d.timer.isSome = true
  · rw [if_pos hc]
    refine ⟨⟨by simp [EventLoop.delay_callback, ha], fun id h => ?_⟩,
      by simp [EventLoop.delay_callback, ha]⟩
    simp only [EventLoop.delay_callback, Option.some.injEq] at h ⊢
    simp [h]
  · rw [if_neg hc]
    exact ⟨⟨by simp [ha, hh], fun id h => by rw [hh] at h; cases h⟩, by simp [ha]⟩

theorem gpio_preserves_inv (d : GpioDev) (ev : EventLoop) (now : Nat)
    (writeOk : Bool) (st : String) (hinv : timer_slot_inv d.timerHandle ev) :
    timer_slot_inv (gpio_set_power d ev now writeOk st).1.timerHandle
      (gpio_set_power d ev now writeOk st).2.1 ∧
    (gpio_set_power d ev now writeOk st).2.1.armed.length ≤ 1 := by
  have hclr := cancel_clears hinv
  cases writeOk with
  | false =>
    rw [gpio_set_power_false]
    exact ⟨⟨by simp [hclr], fun id h => by cases h⟩, by simp [hclr]⟩
  | true =>
    rw [gpio_set_power_true]
    exact gpio_check_timer_inv _ _ now rfl hclr

theorem gpio_rearm (d : GpioDev) (ev : EventLoop) (now dur : Nat)
    (hinv : timer_slot_inv d.timerHandle ev) (htimer : d.timer = some dur) :
    (gpio_set_power d ev now true "on").2.1.armed = [(ev.nextId, now + dur)] ∧
    (gpio_set_power d ev now true "on").1.timerHandle = some ev.nextId ∧
    (∀ oldId, d.timerHandle = some oldId → oldId ≠ ev.nextId) := by
  have hclr := cancel_clears hinv
  have hnid := cancel_keeps_nextId d.timerHandle ev
  rw [gpio_set_power_true]
  refine ⟨?_, ?_, fun oldId h => Nat.ne_of_lt (hinv.2 oldId h)⟩ <;>
    simp [gpio_check_timer, htimer, EventLoop.delay_callback, hclr, hnid]

theorem klipper_reset_clears (d : KlipDev) (ev : EventLoop)
    (hinv : timer_slot_inv d.timerHandle ev) :
    (klipper_reset_timer d ev).1.timerHandle = none ∧
    (klipper_reset_timer d ev).2.armed = [] ∧
    (klipper_reset_timer d ev).2.nextId = ev.nextId ∧
    (klipper_reset_timer d ev).1.timer = d.timer := by
  unfold klipper_reset_timer
  cases hh : d.timerHandle with
  | none => exact ⟨hh, by simpa using List.map_eq_nil_iff.mp (hh ▸ hinv.1), rfl, rfl⟩
  | some id =>
    rw [hh] at hinv
    obtain ⟨b, hb⟩ := map_fst_singleton hinv.1
    exact ⟨rfl, by simp [EventLoop.cancel, hb], rfl, rfl⟩

theorem klipper_check_timer_inv (d : KlipDev) (ev : EventLoop) (now : Nat)
    (hh : d.timerHandle = none) (ha : ev.armed = []) :
    timer_slot_inv (klipper_check_timer d ev now).1.timerHandle
      (klipper_check_timer d ev now).2 ∧
    (klipper_check_timer d ev now).2.armed.length ≤ 1 := by
  unfold klipper_check_timer
  by_cases hc : d.state = "on" ∧ d.timer.isSome = true
  · rw [if_pos hc]
    refine ⟨⟨by simp [EventLoop.delay_callback, ha], fun id h => ?_⟩,
      by simp [EventLoop.delay_callback, ha]⟩
    simp only [EventLoop.delay_callback, Option.some.injEq] at h ⊢
    simp [h]
  · rw [if_neg hc]
    exact ⟨⟨by simp [ha, hh], fun id h => by rw [hh] at h; cases h⟩, by simp [ha]⟩

theorem klipper_set_power_run (d : KlipDev) (ev : EventLoop) (now : Nat)
    (outcome : Except String String) (st : String) (h : d.isShutdown = false) :
    klipper_set_power d ev now outcome st =
      (let rt := klipper_reset_timer d ev
       match outcome with
       | Except.error e => ({ rt.1 with state := "error" }, rt.2, some e)
       | Except.ok reported =>
         let d2 := { rt.1 with state := reported }
         let ct := klipper_check_timer d2 rt.2 now
         (ct.1, ct.2, none)) := by
  unfold klipper_set_power
  rw [if_neg (by rw [h]; exact Bool.false_ne_true)]

theorem klipper_preserves_inv (d : KlipDev) (ev : EventLoop) (now : Nat)
    (outcome : Except String String) (st : String)
    (hinv : timer_slot_inv d.timerHandle ev) :
    timer_slot_inv (klipper_set_power d ev now outcome st).1.timerHandle
      (klipper_set_power d ev now outcome st).2.1 ∧
    (klipper_set_power d ev now outcome st).2.1.armed.length ≤ 1 := by
  cases hsd : d.isShutdown with
  | true =>
    unfold klipper_set_power
    rw [if_pos hsd]
    exact ⟨hinv, inv_armed_short hinv⟩
  | false =>
    rw [klipper_set_power_run d ev now outcome st hsd]
    obtain ⟨hh, ha, -, -⟩ := klipper_reset_clears d ev hinv
    cases outcome with
    | error e =>
      simp only
      exact ⟨⟨by simp [ha, hh], fun id h => by rw [hh] at h; cases h⟩, by simp [ha]⟩
    | ok reported =>
      simp only
      exact klipper_check_timer_inv _ _ now hh ha

theorem klipper_rearm (d : KlipDev) (ev : EventLoop) (now dur : Nat)
    (hinv : timer_slot_inv d.timerHandle ev) (hsd : d.isShutdown = false)
    (htimer : d.timer = some dur) :
    (klipper_set_power d ev now (Except.ok "on") "on").2.1.armed = [(ev.nextId, now + dur)] ∧
    (klipper_set_power d ev now (Except.ok "on") "on").1.timerHandle = some ev.nextId ∧
    (∀ oldId, d.timerHandle = some oldId → oldId ≠ ev.nextId) := by
  obtain ⟨hh, ha, hn, ht⟩ := klipper_reset_clears d ev hinv
  rw [klipper_set_power_run d ev now (Except.ok "on") "on" hsd]
  refine ⟨?_, ?_, fun oldId h => Nat.ne_of_lt (hinv.2 oldId h)⟩ <;>
    simp [klipper_check_timer, htimer, ht, EventLoop.delay_callback, ha, hn]

theorem batch_loop_ok (devNames : List String)
    (proc : String → String → Except String String) (req : String)
    (f : String → String) :
    ∀ l : List String, (∀ n ∈ l, n ∈ devNames → proc n req = Except.ok (f n)) →
      batch_loop devNames proc req l =
        Except.ok (l.map fun n => (n, if n ∈ devNames then f n else "device_not_found"))
  | [], _ => rfl
  | name :: rest, h => by
    have hrest := batch_loop_ok devNames proc req f rest
      (fun n hn hd => h n (List.mem_cons_of_mem _ hn) hd)
    unfold batch_loop
    by_cases hmem : name ∈ devNames
    · rw [if_pos hmem, h name (List.mem_cons_self _ _) hmem, hrest]
      simp [hmem]
    · rw [if_neg hmem, hrest]
      simp [hmem]

/-- C1 counterexample: with `lockedWhilePrinting = true`, an active print
and `force = false`, the request "on" on a device whose refreshed state is
already "on" does NOT fail with PermissionDenied — it succeeds and returns
"on" (the already-in-requested-state branch runs before the printing
guard), so the claim as stated is false. -/
theorem C1_counterexample :
    (process_request idDriver sampleDev true KlippyState.ready 5 "on" false).result =
      Except.ok "on" ∧
    (process_request idDriver sampleDev true KlippyState.ready 5 "on" false).setPowerCalls =
      [] := by decide

/-- C1 (amended): for every device with `lockedWhilePrinting = true`, when
the supervised hardware reports an active print and `force = false`, any
"on"/"off" request whose value differs from the just-refreshed state fails
with the PermissionDenied error "unable to change power while printing";
the driver's `set_power` is not invoked, the device's state keeps the
just-refreshed value, the request lock is released on this exit path, and
`_last_update_time` is stamped. -/
theorem C1_printing_guard (drv : Driver) (d : PDev) (ks : KlippyState)
    (now : Nat) (req : String)
    (hfast : ¬(d.state = "init" ∧ d.lockLocked = true))
    (hreq : req = "on" ∨ req = "off")
    (hok : (drv.refreshStatus d.state).error = none)
    (hne : req ≠ (drv.refreshStatus d.state).newState)
    (hlwp : d.lockedWhilePrinting = true) :
    (process_request drv d true ks now req false).result =
      Except.error ("Unable to change power for " ++ d.name ++ " while printing") ∧
    (process_request drv d true ks now req false).setPowerCalls = [] ∧
    (process_request drv d true ks now req false).dev.state =
      (drv.refreshStatus d.state).newState ∧
    (process_request drv d true ks now req false).lockReleased = true ∧
    (process_request drv d true ks now req false).dev.lastUpdateTime = now := by
  have hnt : req ≠ "toggle" := by rcases hreq with h | h <;> simp [h]
  unfold process_request
  rw [if_neg hfast]
  cases hr : drv.refreshStatus d.state with
  | mk ns err =>
    rw [hr] at hok hne
    cases hok
    simp only [if_neg hnt]
    simp [hreq, hne, hlwp]

/-- C1 witness: the amended theorem at a concrete device and driver. -/
theorem C1_printing_guard_witness :
    (process_request idDriver sampleDev true KlippyState.ready 5 "off" false).result =
      Except.error "Unable to change power for printer_plug while printing" ∧
    (process_request idDriver sampleDev true KlippyState.ready 5 "off" false).setPowerCalls =
      [] ∧
    (process_request idDriver sampleDev true KlippyState.ready 5 "off" false).dev.state =
      "on" ∧
    (process_request idDriver sampleDev true KlippyState.ready 5 "off" false).lockReleased =
      true ∧
    (process_request idDriver sampleDev true KlippyState.ready 5 "off" false).dev.lastUpdateTime =
      5 := by
  have h := C1_printing_guard idDriver sampleDev KlippyState.ready 5 "off"
    (by decide) (Or.inr rfl) rfl (by decide) rfl
  exact h

/-- C2: a "toggle" request behaves exactly like the request obtained by
resolving against the state produced by the just-completed
`refresh_status` — "on" when the refreshed state is "off", "off"
otherwise — and never against the pre-refresh state. -/
theorem C2_toggle_resolves_against_refreshed_state (drv : Driver) (d : PDev)
    (printing : Bool) (ks : KlippyState) (now : Nat) (force : Bool) :
    process_request drv d printing ks now "toggle" force =
      process_request drv d printing ks now
        (if (drv.refreshStatus d.state).newState = "off" then "on" else "off") force := by
  unfold process_request
  by_cases hfast : d.state = "init" ∧ d.lockLocked = true
  · rw [if_pos hfast, if_pos hfast]
  · rw [if_neg hfast, if_neg hfast]
    cases hr : drv.refreshStatus d.state with
    | mk ns err =>
      cases err with
      | some e => simp [hr]
      | none => by_cases hns : ns = "off" <;> simp [hr, hns]

/-- C4: when the device state is "init" and the request lock is already
held, `process_request` returns "init" immediately: it does not wait for
or acquire the lock, does not call `refresh_status` or `set_power`, and
leaves every device field including `_last_update_time` unchanged. -/
theorem C4_init_fast_return (drv : Driver) (d : PDev) (printing : Bool)
    (ks : KlippyState) (now : Nat) (req : String) (force : Bool)
    (hinit : d.state = "init") (hlock : d.lockLocked = true) :
    (process_request drv d printing ks now req force).result = Except.ok "init" ∧
    (process_request drv d printing ks now req force).dev = d ∧
    (process_request drv d printing ks now req force).refreshCalled = false ∧
    (process_request drv d printing ks now req force).setPowerCalls = [] ∧
    (process_request drv d printing ks now req force).acquiredLock = false := by
  unfold process_request
  rw [if_pos ⟨hinit, hlock⟩]
  exact ⟨by rw [hinit], rfl, rfl, rfl, rfl⟩

/-- C4 witness: the fast-return theorem at a concrete initializing device
holding its lock. -/
theorem C4_init_fast_return_witness :
    (process_request idDriver { sampleDev with state := "init", lockLocked := true }
      true KlippyState.ready 9 "on" false).result = Except.ok "init" ∧
    (process_request idDriver { sampleDev with state := "init", lockLocked := true }
      true KlippyState.ready 9 "on" false).dev =
        { sampleDev with state := "init", lockLocked := true } ∧
    (process_request idDriver { sampleDev with state := "init", lockLocked := true }
      true KlippyState.ready 9 "on" false).refreshCalled = false ∧
    (process_request idDriver { sampleDev with state := "init", lockLocked := true }
      true KlippyState.ready 9 "on" false).setPowerCalls = [] ∧
    (process_request idDriver { sampleDev with state := "init", lockLocked := true }
      true KlippyState.ready 9 "on" false).acquiredLock = false := by
  have h := C4_init_fast_return idDriver
    { sampleDev with state := "init", lockLocked := true }
    true KlippyState.ready 9 "on" false rfl rfl
  exact h

/-- C10: an "on"/"off" request equal to the just-refreshed state succeeds
and returns that state without invoking the driver's `set_power`, and the
printing guard is never reached: this holds for every `printing`,
`force` and `lockedWhilePrinting` value, in particular with
`lockedWhilePrinting = true`, an active print and `force = false`. -/
theorem C10_already_in_state_skips_guard (drv : Driver) (d : PDev) (printing : Bool)
    (ks : KlippyState) (now : Nat) (req : String) (force : Bool)
    (hfast : ¬(d.state = "init" ∧ d.lockLocked = true))
    (hreq : req = "on" ∨ req = "off")
    (hok : (drv.refreshStatus d.state).error = none)
    (heq : (drv.refreshStatus d.state).newState = req) :
    (process_request drv d printing ks now req force).result = Except.ok req ∧
    (process_request drv d printing ks now req force).setPowerCalls = [] := by
  have hnt : req ≠ "toggle" := by rcases hreq with h | h <;> simp [h]
  unfold process_request
  rw [if_neg hfast]
  cases hr : drv.refreshStatus d.state with
  | mk ns err =>
    rw [hr] at hok heq
    cases hok
    simp only at heq
    subst heq
    simp only at hreq hnt
    simp only [if_neg hnt]
    by_cases hbase : d.state = ns
    · simp [hreq, hbase]
    · by_cases hra : d.restrictActions = true <;> simp [hreq, hbase, hra]

/-- C10 witness: the theorem at a concrete printing-locked device already
in the requested state. -/
theorem C10_already_in_state_skips_guard_witness :
    (process_request idDriver sampleDev true KlippyState.ready 7 "on" false).result =
      Except.ok "on" ∧
    (process_request idDriver sampleDev true KlippyState.ready 7 "on" false).setPowerCalls =
      [] := by
  have h := C10_already_in_state_skips_guard idDriver sampleDev true KlippyState.ready 7
    "on" false (by decide) (Or.inl rfl) rfl rfl
  exact h

/-- C3: when a request observes an externally changed state (the refreshed
state differs from the stored one) and applies no transition (a "status"
request, or an "on"/"off" request equal to the refreshed state), then with
`restrict_actions = true` exactly the `power:power_changed` notification
is emitted (no bound-service action, no restart scheduling, restart flag
untouched), and with `restrict_actions = false` the full
`process_power_changed` side-effect processing runs. -/
theorem C3_external_change_action_policy (drv : Driver) (d : PDev) (printing : Bool)
    (ks : KlippyState) (now : Nat) (req : String) (force : Bool)
    (hfast : ¬(d.state = "init" ∧ d.lockLocked = true))
    (hok : (drv.refreshStatus d.state).error = none)
    (hchange : (drv.refreshStatus d.state).newState ≠ d.state)
    (hnotrans : req = "status" ∨
      ((req = "on" ∨ req = "off") ∧ req = (drv.refreshStatus d.state).newState)) :
    (process_request drv d printing ks now req force).setPowerCalls = [] ∧
    (d.restrictActions = true →
      (process_request drv d printing ks now req force).effects =
        { notifyCount := 1, serviceActions := [], restartScheduled := false } ∧
      (process_request drv d printing ks now req force).dev.needScheduledRestart =
        d.needScheduledRestart) ∧
    (d.restrictActions = false →
      (process_request drv d printing ks now req force).effects =
        (process_power_changed { d with state := (drv.refreshStatus d.state).newState } ks).2 ∧
      (process_request drv d printing ks now req force).dev =
        { (process_power_changed { d with state := (drv.refreshStatus d.state).newState } ks).1
            with lastUpdateTime := now }) := by
  unfold process_request
  rw [if_neg hfast]
  cases hr : drv.refreshStatus d.state with
  | mk ns err =>
    rw [hr] at hok hchange hnotrans
    cases hok
    simp only at hchange hnotrans
    have hbase : ¬(d.state = ns) := fun h => hchange h.symm
    rcases hnotrans with hst | ⟨honoff, heqcur⟩
    · subst hst
      have hnt : ("status" : String) ≠ "toggle" := by decide
      have hno : ¬(("status" : String) = "on" ∨ ("status" : String) = "off") := by decide
      simp only [if_neg hnt, if_neg hno]
      by_cases hra : d.restrictActions = true
      · simp [hbase, hra]
      · have hra2 : d.restrictActions = false := by
          cases h : d.restrictActions
          · rfl
          · exact absurd h hra
        simp [hbase, hra2]
    · subst heqcur
      have hnt : req ≠ "toggle" := by rcases honoff with h | h <;> simp [h]
      by_cases hra : d.restrictActions = true
      · simp [hnt, honoff, hbase, hra]
      · have hra2 : d.restrictActions = false := by
          cases h : d.restrictActions
          · rfl
          · exact absurd h hra
        simp [hnt, honoff, hbase, hra2]

/-- C3 witness: a "status" request observing an external on-to-off change
on a restricted device (notification only) and on an unrestricted device
(a bound-service stop action runs). -/
theorem C3_external_change_action_policy_witness :
    (process_request offDriver sampleDev false KlippyState.ready 5 "status" false).setPowerCalls =
      [] ∧
    (process_request offDriver sampleDev false KlippyState.ready 5 "status" false).effects =
      { notifyCount := 1, serviceActions := [], restartScheduled := false } ∧
    (process_request offDriver { sampleDev with restrictActions := false }
        false KlippyState.ready 5 "status" false).effects =
      { notifyCount := 1, serviceActions := [("stop", "klipper")], restartScheduled := false } := by
  have h1 := C3_external_change_action_policy offDriver sampleDev false KlippyState.ready 5
    "status" false (by decide) rfl (by decide) (Or.inl rfl)
  have h2 := C3_external_change_action_policy offDriver
    { sampleDev with restrictActions := false } false KlippyState.ready 5
    "status" false (by decide) rfl (by decide) (Or.inl rfl)
  exact ⟨h1.1, (h1.2.1 rfl).1, ((h2.2.2 rfl).1).trans (by decide)⟩

/-- C5 counterexample: a per-device failure raised by `process_request` is
NOT captured in the result map — it propagates and fails the whole batch
even though the name "a" resolved, contradicting the claim that a failure
is a request-level error only when no names resolve. -/
theorem C5_counterexample :
    handle_batch_power_request ["a"] (fun _ _ => Except.error "boom") ["a"] "on" =
      Except.error "boom" := by rfl

/-- C5 (amended): a batch request with no names fails with InvalidArgument
("No arguments provided"); otherwise each unknown name maps to the literal
"device_not_found" and each known name maps to the state returned by its
delegated `process_request`; a failure raised by a delegated
`process_request` is not captured per-device but propagates, aborting the
batch. -/
theorem C5_batch_request (devNames : List String)
    (proc : String → String → Except String String)
    (args : List String) (req : String) (f : String → String) :
    (args = [] →
      handle_batch_power_request devNames proc args req =
        Except.error "No arguments provided") ∧
    (args ≠ [] → (∀ n ∈ args, n ∈ devNames → proc n req = Except.ok (f n)) →
      handle_batch_power_request devNames proc args req =
        Except.ok (args.map fun n =>
          (n, if n ∈ devNames then f n else "device_not_found"))) := by
  constructor
  · intro h
    subst h
    rfl
  · intro hne h
    unfold handle_batch_power_request
    rw [if_neg hne, batch_loop_ok devNames proc req f args h]

/-- C5 witness: the amended theorem at a registry with only device "a":
the batch for names a and missing, and the empty batch. -/
theorem C5_batch_request_witness :
    handle_batch_power_request ["a"] (fun _ _ => Except.ok "on") ["a", "missing"] "status" =
      Except.ok [("a", "on"), ("missing", "device_not_found")] ∧
    handle_batch_power_request ["a"] (fun _ _ => Except.ok "on") [] "status" =
      Except.error "No arguments provided" := by
  have h := C5_batch_request ["a"] (fun _ _ => Except.ok "on") ["a", "missing"] "status"
    (fun _ => "on")
  have h0 := C5_batch_request ["a"] (fun _ _ => Except.ok "on") [] "status"
    (fun _ => "on")
  exact ⟨(h.2 (by decide) (fun n hn hd => rfl)).trans (by decide), h0.1 rfl⟩

/-- C8: `set_device_power` with the string "TRUE" behaves identically to
the boolean true and to the string "on" (states are lowercased and
"true"/"false" normalize to "on"/"off" before dispatch); any input whose
normalized request is not "on"/"off"/"toggle", or whose device name is
unknown, is silently dropped: nothing is scheduled and no error is
raised. -/
theorem C8_set_device_power_equivalence (devNames : List String) (name : String)
    (force : Bool) :
    (set_device_power devNames name (PyVal.str "TRUE") force =
       set_device_power devNames name (PyVal.bool true) force ∧
     set_device_power devNames name (PyVal.str "TRUE") force =
       set_device_power devNames name (PyVal.str "on") force) ∧
    (∀ st : PyVal,
      (¬(normalize_request st = "on" ∨ normalize_request st = "off" ∨
          normalize_request st = "toggle") ∨ name ∉ devNames) →
      set_device_power devNames name st force = none) := by
  constructor
  · have h1 : normalize_request (PyVal.str "TRUE") = "on" := by decide
    have h2 : normalize_request (PyVal.bool true) = "on" := by decide
    have h3 : normalize_request (PyVal.str "on") = "on" := by decide
    constructor
    · unfold set_device_power
      rw [h1, h2]
    · unfold set_device_power
      rw [h1, h3]
  · intro st hbad
    unfold set_device_power
    rcases hbad with hreq | hname
    · rw [if_pos hreq]
    · by_cases hreq : normalize_request st = "on" ∨ normalize_request st = "off" ∨
        normalize_request st = "toggle"
      · rw [if_neg (not_not_intro hreq), if_pos hname]
      · rw [if_pos hreq]

/-- C8 witness: the equivalences at a concrete registry, an invalid state
string and an unknown device name. -/
theorem C8_set_device_power_equivalence_witness :
    (set_device_power ["a"] "a" (PyVal.str "TRUE") false =
       set_device_power ["a"] "a" (PyVal.bool true) false ∧
     set_device_power ["a"] "a" (PyVal.str "TRUE") false =
       set_device_power ["a"] "a" (PyVal.str "on") false) ∧
    set_device_power ["a"] "a" (PyVal.str "bogus") false = none ∧
    set_device_power ["a"] "b" (PyVal.str "on") false = none := by
  exact ⟨(C8_set_device_power_equivalence ["a"] "a" false).1,
    (C8_set_device_power_equivalence ["a"] "a" false).2 (PyVal.str "bogus")
      (Or.inl (by decide)),
    (C8_set_device_power_equivalence ["a"] "b" false).2 (PyVal.str "on")
      (Or.inr (by decide))⟩

/-- C9: a single-device request fails when the named device is unknown
("No valid device named ..."), fails on a POST whose lowercased action is
not "on"/"off"/"toggle" ("Invalid requested action ..."), and otherwise
delegates to `process_request` — "status" for a GET — returning the map
from the device name to the resulting state. -/
theorem C9_single_request_validation (devNames : List String)
    (proc : String → String → Except String String)
    (devName : String) (action : String) (s : String) :
    (devName ∉ devNames → ∀ rt : RequestType,
      handle_single_power_request devNames proc devName rt action =
        Except.error ("No valid device named " ++ devName)) ∧
    (devName ∈ devNames →
      (py_lower action ∉ (["on", "off", "toggle"] : List String) →
        handle_single_power_request devNames proc devName RequestType.post action =
          Except.error ("Invalid requested action " ++ py_lower action)) ∧
      (proc devName "status" = Except.ok s →
        handle_single_power_request devNames proc devName RequestType.get action =
          Except.ok [(devName, s)]) ∧
      (py_lower action ∈ (["on", "off", "toggle"] : List String) →
        proc devName (py_lower action) = Except.ok s →
        handle_single_power_request devNames proc devName RequestType.post action =
          Except.ok [(devName, s)])) := by
  refine ⟨fun hout rt => ?_, fun hin => ⟨fun hbad => ?_, fun hst => ?_, fun hgood hp => ?_⟩⟩
  · unfold handle_single_power_request
    rw [if_pos hout]
  · have hbad2 : ¬(py_lower action = "on" ∨ py_lower action = "off" ∨
        py_lower action = "toggle") := by simpa using hbad
    unfold handle_single_power_request
    rw [if_neg (not_not_intro hin)]
    simp only [if_neg hbad2]
  · unfold handle_single_power_request
    rw [if_neg (not_not_intro hin)]
    simp only [hst]
  · have hgood2 : py_lower action = "on" ∨ py_lower action = "off" ∨
        py_lower action = "toggle" := by simpa using hgood
    unfold handle_single_power_request
    rw [if_neg (not_not_intro hin)]
    simp only [if_pos hgood2, hp]

/-- C9 witness: the four behaviors at a registry with only device "a". -/
theorem C9_single_request_validation_witness :
    handle_single_power_request ["a"] (fun _ _ => Except.ok "on") "b"
      RequestType.get "x" = Except.error "No valid device named b" ∧
    handle_single_power_request ["a"] (fun _ _ => Except.ok "on") "a"
      RequestType.post "frob" = Except.error "Invalid requested action frob" ∧
    handle_single_power_request ["a"] (fun _ _ => Except.ok "on") "a"
      RequestType.get "x" = Except.ok [("a", "on")] ∧
    handle_single_power_request ["a"] (fun _ _ => Except.ok "on") "a"
      RequestType.post "TOGGLE" = Except.ok [("a", "on")] := by
  have hb := C9_single_request_validation ["a"] (fun _ _ => Except.ok "on") "b" "x" "on"
  have ha := C9_single_request_validation ["a"] (fun _ _ => Except.ok "on") "a" "frob" "on"
  have hg := C9_single_request_validation ["a"] (fun _ _ => Except.ok "on") "a" "x" "on"
  have ht := C9_single_request_validation ["a"] (fun _ _ => Except.ok "on") "a" "TOGGLE" "on"
  exact ⟨hb.1 (by decide) RequestType.get,
    (ha.2 (by decide)).1 (by decide),
    (hg.2 (by decide)).2.1 rfl,
    (ht.2 (by decide)).2.2 (by decide) rfl⟩

/-- C6: with `off_when_shutdown = true` and a positive delay, a Klippy
shutdown event cancels any existing shutdown timer and arms exactly one
new timer for `now + delay` without issuing an immediate off request; the
timer's callback `_power_off_on_shutdown` issues the fire-and-forget off
request if and only if Klippy is still in the SHUTDOWN state when it runs;
in the scenario shutdown at t=0, recovery at t=1, firing at t=2 no off
request is issued, while without the recovery the off request fires. -/
theorem C6_shutdown_timer_recheck :
    (∀ (d : PDev) (ev : EventLoop) (ks : KlippyState) (now : Nat),
      d.offWhenShutdown = true → d.offWhenShutdownDelay ≠ 0 →
      (process_klippy_shutdown d ev ks now).1.shutdownTimerHandle = some ev.nextId ∧
      (process_klippy_shutdown d ev ks now).2.1.armed =
        (match d.shutdownTimerHandle with
          | some id => ev.cancel id
          | none => ev).armed ++ [(ev.nextId, now + d.offWhenShutdownDelay)] ∧
      (process_klippy_shutdown d ev ks now).2.2 = none ∧
      (∀ oldId, d.shutdownTimerHandle = some oldId → oldId < ev.nextId →
        ∀ t ∈ (process_klippy_shutdown d ev ks now).2.1.armed, t.1 ≠ oldId)) ∧
    (∀ (d : PDev) (ks : KlippyState),
      power_off_on_shutdown d ks =
        (if ks = KlippyState.shutdown then some (d.name, "off") else none)) ∧
    shutdown_recovery_offs = [] ∧
    shutdown_no_recovery_offs = [("printer_plug", "off")] := by
  refine ⟨fun d ev ks now how hdel => ?_, fun d ks => ?_, by decide, by decide⟩
  · unfold process_klippy_shutdown
    rw [if_neg (by rw [how]; decide), if_neg hdel]
    cases hh : d.shutdownTimerHandle with
    | none =>
      refine ⟨rfl, rfl, rfl, fun oldId hold => ?_⟩
      exact absurd hold (by simp)
    | some oldId =>
      refine ⟨rfl, rfl, rfl, fun oldId2 hold holt t ht hfst => ?_⟩
      rw [Option.some.injEq] at hold
      subst hold
      simp only [EventLoop.delay_callback, EventLoop.cancel, List.mem_append,
        List.mem_singleton, List.mem_filter, decide_eq_true_eq] at ht
      rcases ht with ⟨-, hne⟩ | ht
      · exact hne hfst
      · rw [ht] at hfst
        simp only at hfst
        exact Nat.ne_of_lt holt hfst.symm
  · unfold power_off_on_shutdown
    by_cases h : ks = KlippyState.shutdown
    · rw [if_neg (not_not_intro h), if_pos h]
    · rw [if_pos h, if_neg h]

/-- C6 witness: the shutdown event on the concrete delayed device, the
callback at both Klippy states, and the two scenario runs. -/
theorem C6_shutdown_timer_recheck_witness :
    (process_klippy_shutdown shutdownDev emptyLoop KlippyState.shutdown 0).1.shutdownTimerHandle =
      some 0 ∧
    (process_klippy_shutdown shutdownDev emptyLoop KlippyState.shutdown 0).2.1.armed =
      [(0, 2)] ∧
    power_off_on_shutdown shutdownDev KlippyState.ready = none ∧
    power_off_on_shutdown shutdownDev KlippyState.shutdown = some ("printer_plug", "off") ∧
    shutdown_recovery_offs = [] ∧
    shutdown_no_recovery_offs = [("printer_plug", "off")] := by
  have h := C6_shutdown_timer_recheck
  have ha := h.1 shutdownDev emptyLoop KlippyState.shutdown 0 rfl (by decide)
  exact ⟨ha.1, ha.2.1.trans (by decide),
    (h.2.1 shutdownDev KlippyState.ready).trans (by decide),
    (h.2.1 shutdownDev KlippyState.shutdown).trans (by decide),
    h.2.2.1, h.2.2.2⟩

/-- C7 counterexample: the claim is false for `RFDevice`, a
timer-configured device type: its `set_power` override omits the
cancel-before-rearm of `GpioDevice.set_power`, so turning the device on
(arming timer 0, due t=10), off, and on again at t=2 leaves TWO armed
auto-off timers ([(0, 10), (1, 12)]) instead of cancelling the prior one:
the stale timer 0 still fires at t=10 and powers the device off
prematurely. -/
theorem C7_counterexample :
    rf_double_on_trace.2.armed = [(0, 10), (1, 12)] ∧
    rf_double_on_trace.2.armed.length = 2 ∧
    rf_double_on_trace.1.timerHandle = some 1 := by decide

/-- C7 (amended): for `GpioDevice` and `KlipperDevice`, `set_power`
preserves the single-armed-timer discipline (at most one auto-off timer is
armed afterwards), and a `set_power` that turns the device on with a
configured timer arms exactly one fresh timer, distinct from and replacing
any previously armed one.  (`RFDevice`, which inherits the timer option,
omits the cancel in its `set_power` override and can stack two armed
timers — see the counterexample.) -/
theorem C7_single_auto_off_timer :
    (∀ (d : GpioDev) (ev : EventLoop) (now : Nat) (writeOk : Bool) (st : String),
      timer_slot_inv d.timerHandle ev →
      timer_slot_inv (gpio_set_power d ev now writeOk st).1.timerHandle
        (gpio_set_power d ev now writeOk st).2.1 ∧
      (gpio_set_power d ev now writeOk st).2.1.armed.length ≤ 1) ∧
    (∀ (d : GpioDev) (ev : EventLoop) (now dur : Nat),
      timer_slot_inv d.timerHandle ev → d.timer = some dur →
      (gpio_set_power d ev now true "on").2.1.armed = [(ev.nextId, now + dur)] ∧
      (gpio_set_power d ev now true "on").1.timerHandle = some ev.nextId ∧
      (∀ oldId, d.timerHandle = some oldId → oldId ≠ ev.nextId)) ∧
    (∀ (d : KlipDev) (ev : EventLoop) (now : Nat) (outcome : Except String String)
        (st : String),
      timer_slot_inv d.timerHandle ev →
      timer_slot_inv (klipper_set_power d ev now outcome st).1.timerHandle
        (klipper_set_power d ev now outcome st).2.1 ∧
      (klipper_set_power d ev now outcome st).2.1.armed.length ≤ 1) ∧
    (∀ (d : KlipDev) (ev : EventLoop) (now dur : Nat),
      timer_slot_inv d.timerHandle ev → d.isShutdown = false → d.timer = some dur →
      (klipper_set_power d ev now (Except.ok "on") "on").2.1.armed =
        [(ev.nextId, now + dur)] ∧
      (klipper_set_power d ev now (Except.ok "on") "on").1.timerHandle = some ev.nextId ∧
      (∀ oldId, d.timerHandle = some oldId → oldId ≠ ev.nextId)) :=
  ⟨gpio_preserves_inv, gpio_rearm, klipper_preserves_inv, klipper_rearm⟩

/-- C7 witness: a second "on" on concrete devices whose previous auto-off
timer (handle 0) is still armed re-arms exactly one fresh timer
(handle 1). -/
theorem C7_single_auto_off_timer_witness :
    timer_slot_inv gpioSample.timerHandle loopSample ∧
    (gpio_set_power gpioSample loopSample 5 true "on").2.1.armed = [(1, 8)] ∧
    (gpio_set_power gpioSample loopSample 5 true "on").1.timerHandle = some 1 ∧
    (klipper_set_power klipSample loopSample 5 (Except.ok "on") "on").2.1.armed =
      [(1, 9)] ∧
    (klipper_set_power klipSample loopSample 5 (Except.ok "on") "on").1.timerHandle =
      some 1 := by
  have hinvg : timer_slot_inv gpioSample.timerHandle loopSample :=
    ⟨rfl, fun id h => by injection h with h2; rw [← h2]; decide⟩
  have hinvk : timer_slot_inv klipSample.timerHandle loopSample :=
    ⟨rfl, fun id h => by injection h with h2; rw [← h2]; decide⟩
  have hg := C7_single_auto_off_timer.2.1 gpioSample loopSample 5 3 hinvg rfl
  have hk := C7_single_auto_off_timer.2.2.2 klipSample loopSample 5 4 hinvk rfl rfl
  exact ⟨hinvg, hg.1, hg.2.1, hk.1, hk.2.1⟩

end Power
